import Mathlib

/-!
Shallow embedding of `src/pebble/process/task.py`: the task lifecycle core of
the pebble library (worker entry point `task_worker`, lifecycle manager
`task_manager`, `ProcessTask._cancel`, the `task` factory and
`TaskDecoratorWrapper`), together with theorems settling the specification
claims about it.
-/

namespace Pebble

/-- Model of a Python value flowing through the system: `None`, an integer
result, a string, or an exception object carrying its class name, message and
an optional `traceback` attribute. -/
inductive PyVal
  | none
  | int (n : Int)
  | str (s : String)
  | exc (cls : String) (msg : String) (traceback : Option String)
deriving DecidableEq, Repr

/-- Model of `traceback.format_exc()`: a formatted stack trace, always a
non-empty string when called from an exception handler. -/
def format_exc : String := "Traceback (most recent call last):"

/-- How the call `function(*args, **kwargs)` inside the worker terminates:
a normal return, an `IOError`/`OSError`, or any other `Exception` (with class,
message, and whatever `traceback` attribute the object already had). -/
inductive CallResult
  | ok (v : PyVal)
  | raisesOsIoError
  | raisesExc (cls : String) (msg : String) (traceback0 : Option String)
deriving DecidableEq, Repr

/-- How a `queue.put` call behaves: succeeds, raises one of
`IOError`/`OSError`/`EOFError`, or raises a `PicklingError` with the given
message. -/
inductive PutBehavior
  | succeeds
  | raisesIoOsEofError
  | raisesPickling (msg : String)
deriving DecidableEq, Repr

/-- Observable result of one worker process run: the sequence of items written
to the channel, and the process exit status (0 = normal termination). -/
structure WorkerRun where
  writes : List PyVal
  exitStatus : Nat
deriving DecidableEq, Repr

/-- Shallow embedding of `task_worker` (src/pebble/process/task.py:83-104).
`call` is how `function(*args, **kwargs)` terminates; `put1` is the behavior of
the `queue.put` in the `finally` block; `put2Succeeds` is whether the second
`queue.put(error)` inside the `PicklingError` handler succeeds.

Python semantics mirrored here: `sys.exit(1)` raises `SystemExit`, so the
`finally` block still executes before the process terminates; the expression
`error is not None and error or results` evaluates to the exception object when
`error` is set (exception objects are truthy) and to `results` otherwise. -/
def task_worker (call : CallResult) (put1 : PutBehavior) (put2Succeeds : Bool) :
    WorkerRun :=
  -- try: results = function(*args, **kwargs)
  let results : PyVal := match call with | .ok v => v | _ => PyVal.none
  -- except (IOError, OSError): sys.exit(1)   (SystemExit pending; finally runs)
  let pendingSystemExit : Bool :=
    match call with | .raisesOsIoError => true | _ => false
  -- except Exception as err: error = err; error.traceback = format_exc()
  let error : Option PyVal :=
    match call with
    | .raisesExc cls msg _ => some (PyVal.exc cls msg (some format_exc))
    | _ => Option.none
  -- finally: queue.put(error is not None and error or results)
  let payload : PyVal := match error with | some e => e | Option.none => results
  match put1 with
  | .succeeds =>
      { writes := [payload], exitStatus := if pendingSystemExit then 1 else 0 }
  | .raisesIoOsEofError =>
      -- except (IOError, OSError, EOFError): sys.exit(1)
      { writes := [], exitStatus := 1 }
  | .raisesPickling msg =>
      -- except PicklingError as err: error = err;
      --   error.traceback = format_exc(); queue.put(error)
      if put2Succeeds then
        { writes := [PyVal.exc "PicklingError" msg (some format_exc)],
          exitStatus := if pendingSystemExit then 1 else 0 }
      else
        { writes := [], exitStatus := 1 }

/-- A function reference, either as passed by the caller or as produced by the
marshaling shim. -/
inductive FuncRepr
  | plain (id : Nat)
  | marshaled (f : FuncRepr)
deriving DecidableEq, Repr

/-- A positional-argument tuple, either as passed by the caller or as produced
by the marshaling shim. -/
inductive ArgsRepr
  | plain (id : Nat)
  | marshaled (a : ArgsRepr)
deriving DecidableEq, Repr

/-- Modelled from the spec: `dump_function` comes from `pebble.process.generic`,
which is not under src/; the spec describes it as the shim that
"marshal[s] function+args ... if the platform cannot pass closures directly
across the isolation boundary". It returns the marshaled function together
with the marshaled argument tuple. -/
def dump_function (f : FuncRepr) (a : ArgsRepr) : FuncRepr × ArgsRepr :=
  (FuncRepr.marshaled f, ArgsRepr.marshaled a)

/-- The fields of a `ProcessTask` that `task_manager` reads: `_function`,
`_args`, `_kwargs` (opaque), `timeout`, and whether `_callback` is not `None`. -/
structure TaskInput where
  function : FuncRepr
  args : ArgsRepr
  kwargsId : Nat
  timeout : Int
  callbackPresent : Bool
deriving DecidableEq, Repr

/-- Result of the manager's `queue.get(timeout)`: an item, or the `Empty`
exception after the deadline elapsed. A blocking `get` (timeout `None`) never
raises `Empty`. -/
inductive GetResult
  | item (v : PyVal)
  | empty
deriving DecidableEq, Repr

/-- The terminal outcome the manager passes to `task._set`: either the item
received from the channel, or `TimeoutError('Task Timeout', timeout)` carrying
the manager's resolved `timeout` local (`None` when unbounded). -/
inductive MOutcome
  | fromChannel (v : PyVal)
  | timeoutError (bound : Option Int)
deriving DecidableEq, Repr

/-- Events of one manager run, in program order. -/
inductive MEvent
  | spawn
  | setOutcome
  | terminate
  | join
  | callbackInvoked
  | printExc
deriving DecidableEq, Repr

/-- Observable result of one `task_manager` run. -/
structure ManagerRun where
  effTimeout : Option Int
  spawnedFunction : FuncRepr
  spawnedArgs : ArgsRepr
  finalOutcome : MOutcome
  events : List MEvent
  callbackErrorPropagated : Bool
deriving DecidableEq, Repr

/-- Shallow embedding of `task_manager` (src/pebble/process/task.py:107-138).
`isNT` models `os.name == 'nt'`; `get` is what `queue.get(timeout)` yields;
`cbRaises` is whether the registered callback raises when invoked.

Mirrors the source exactly: the local `args` is rebound to the marshaled
arguments on NT, but the spawn call passes `task._args` (the original
arguments), so the marshaled argument tuple is discarded. A callback exception
is caught by `except Exception: print_exc()` and never propagates. -/
def task_manager (isNT : Bool) (t : TaskInput) (get : GetResult)
    (cbRaises : Bool) : ManagerRun :=
  -- args = task._args; queue = task._queue; function = task._function
  let args := t.args
  let function := t.function
  -- timeout = task.timeout > 0 and task.timeout or None
  let timeout : Option Int := if t.timeout > 0 then some t.timeout else Option.none
  -- if os.name == 'nt': function, args = dump_function(function, args)
  let fa : FuncRepr × ArgsRepr :=
    if isNT then dump_function function args else (function, args)
  -- process = task_worker(queue, function, task._args, task._kwargs)
  let spawnedFunction := fa.1
  let spawnedArgs := t.args
  -- try: results = queue.get(timeout); task._set(results)
  -- except Empty: task._set(TimeoutError('Task Timeout', timeout))
  let outcome : MOutcome :=
    match get with
    | .item v => .fromChannel v
    | .empty => .timeoutError timeout
  -- if task._callback is not None:
  --   try: task._callback(task)
  --   except Exception: print_exc()
  let cbEvents : List MEvent :=
    if t.callbackPresent then
      if cbRaises then [.callbackInvoked, .printExc] else [.callbackInvoked]
    else []
  { effTimeout := timeout
    spawnedFunction := spawnedFunction
    spawnedArgs := spawnedArgs
    finalOutcome := outcome
    events := [MEvent.spawn, MEvent.setOutcome, MEvent.terminate, MEvent.join]
      ++ cbEvents
    callbackErrorPropagated := false }

/-- The mutable state of a `ProcessTask` that `_cancel` touches: the
`_cancelled` flag, the terminal outcome (`Option` because it is unset until
`_set` runs), and the task's channel contents in FIFO order. -/
structure ProcessTaskState where
  cancelled : Bool
  outcome : Option MOutcome
  queue : List PyVal
deriving DecidableEq, Repr

/-- The `TaskCancelled('Task Cancelled')` exception object `_cancel` puts on
the channel. -/
def TaskCancelledItem : PyVal :=
  PyVal.exc "TaskCancelled" "Task Cancelled" Option.none

/-- Shallow embedding of `ProcessTask._cancel`
(src/pebble/process/task.py:151-155): sets `_cancelled = True` and appends
`TaskCancelled('Task Cancelled')` to the task's channel. It never touches the
outcome field. -/
def ProcessTask_cancel (s : ProcessTaskState) : ProcessTaskState :=
  { s with cancelled := true, queue := s.queue ++ [TaskCancelledItem] }

/-- What the manager's `queue.get` observes on a FIFO channel: the first item
if one is present, `Empty` otherwise. -/
def queueGet : List PyVal → GetResult
  | [] => GetResult.empty
  | v :: _ => GetResult.item v

/-- The fields of `TaskDecoratorWrapper` the claims need: its private
`itertools.count()` id source and its configuration. -/
structure TaskDecoratorWrapper where
  counter : Nat
  timeout : PyVal
  callback : PyVal
deriving DecidableEq, Repr

/-- `TaskDecoratorWrapper.__init__`: `self._counter = count()` starts at 0. -/
def mkWrapper (timeout callback : PyVal) : TaskDecoratorWrapper :=
  { counter := 0, timeout := timeout, callback := callback }

/-- `TaskDecoratorWrapper.__call__`: builds a `ProcessTask` whose id is
`next(self._counter)`, advancing the wrapper's private counter. Returns the
new task's id number and the updated wrapper state. -/
def TaskDecoratorWrapper.call (w : TaskDecoratorWrapper) :
    Nat × TaskDecoratorWrapper :=
  (w.counter, { w with counter := w.counter + 1 })

/-- The id of the task created by the wrapper's n-th invocation (counting from
0), starting from wrapper state `w`. -/
def TaskDecoratorWrapper.nthId (w : TaskDecoratorWrapper) : Nat → Nat
  | 0 => (w.call).1
  | n + 1 => ((w.call).2).nthId n

/-- Classification of a positional argument to `task(...)`: either an object
passing `isinstance(x, (FunctionType, MethodType))`, or anything else. -/
inductive ArgKind
  | functionOrMethod
  | other
deriving DecidableEq, Repr

/-- What a call to the `task(...)` factory produces: a raised `ValueError`, a
returned `TaskDecoratorWrapper` (recording its timeout/callback configuration),
or a returned `ProcessTask` (recording its id and configuration). -/
inductive TaskResult
  | valueError (msg : String)
  | wrapperReturned (timeout : PyVal) (callback : PyVal)
  | taskReturned (id : Nat) (timeout : PyVal) (callback : PyVal)
deriving DecidableEq, Repr

/-- Whether the factory call raised `ValueError`. -/
def TaskResult.isValueError : TaskResult → Bool
  | .valueError _ => true
  | _ => false

/-- The id of the `ProcessTask` returned by the factory call, if any. -/
def TaskResult.taskId : TaskResult → Option Nat
  | .taskReturned id _ _ => some id
  | _ => Option.none

/-- Shallow embedding of the `task` factory (src/pebble/process/task.py:39-80).
`g` is the current value of the module-level `_task_counter`; `args` classifies
the positional arguments; `kwargs` is the keyword-argument dict as an
association list. Returns the call's result and the new `_task_counter` value.

Mirrors the source's dispatch: positional arguments with no keyword arguments
take the decorator path (checking `isinstance` of the first); any keyword
arguments take the configured path, popping only `timeout`, `callback`,
`target`, `args`, `kwargs` and ignoring every other key as well as every
positional argument; no arguments at all raises `ValueError`. When `target` is
not `None`, a `ProcessTask` with id `next(_task_counter)` is created, its
manager started, and the task returned. -/
def task (g : Nat) (args : List ArgKind) (kwargs : List (String × PyVal)) :
    TaskResult × Nat :=
  -- if len(args) > 0 and len(kwargs) == 0:
  if 0 < args.length ∧ kwargs.length = 0 then
    match args.head? with
    | some ArgKind.functionOrMethod =>
        -- return TaskDecoratorWrapper(args[0], 0, None)
        (.wrapperReturned (PyVal.int 0) PyVal.none, g)
    | _ =>
        -- raise ValueError("Decorated object must be function or method.")
        (.valueError "Decorated object must be function or method.", g)
  -- elif len(kwargs) > 0:
  else if 0 < kwargs.length then
    let timeout := (kwargs.lookup "timeout").getD (PyVal.int 0)
    let callback := (kwargs.lookup "callback").getD PyVal.none
    let target := (kwargs.lookup "target").getD PyVal.none
    if target ≠ PyVal.none then
      -- task = ProcessTask(next(_task_counter), ...); task_manager(task)
      (.taskReturned g timeout callback, g + 1)
    else
      -- return wrapper (closing over timeout and callback)
      (.wrapperReturned timeout callback, g)
  else
    -- raise ValueError("Decorator accepts only keyword arguments.")
    (.valueError "Decorator accepts only keyword arguments.", g)

/-! Theorems settling the claims. -/

/-- Helper: starting from wrapper state `w`, the n-th invocation creates a task
with id `w.counter + n`. -/
theorem nthId_eq (n : Nat) :
    ∀ w : TaskDecoratorWrapper, w.nthId n = w.counter + n := by
  induction n with
  | zero => intro w; rfl
  | succ n ih =>
    intro w
    rw [TaskDecoratorWrapper.nthId, ih]
    simp [TaskDecoratorWrapper.call]
    omega

/-- C1 counterexample: the claim says that under an OS/IO failure of the target
the worker writes nothing to the channel. In fact, `sys.exit(1)` raises
`SystemExit`, so the `finally` clause still runs and `queue.put` writes the
fallback value `None` (one write, not zero) before the process exits with
status 1. -/
theorem C1_counterexample :
    (task_worker CallResult.raisesOsIoError PutBehavior.succeeds true).writes
      = [PyVal.none] ∧
    (task_worker CallResult.raisesOsIoError PutBehavior.succeeds true).writes
      ≠ ([] : List PyVal) ∧
    (task_worker CallResult.raisesOsIoError PutBehavior.succeeds true).exitStatus
      = 1 := by
  decide

/-- C1 (amended): when the target raises an `IOError`/`OSError`, the worker
process always exits with non-zero status 1, but it does not skip the channel
write: whenever the `finally` clause's `queue.put` succeeds, exactly one item
(the fallback value `None`) is written to the channel. -/
theorem C1_os_io_failure (put1 : PutBehavior) (put2Succeeds : Bool) :
    (task_worker CallResult.raisesOsIoError put1 put2Succeeds).exitStatus = 1 ∧
    (put1 = PutBehavior.succeeds →
      (task_worker CallResult.raisesOsIoError put1 put2Succeeds).writes
        = [PyVal.none]) := by
  cases put1 <;> cases put2Succeeds <;> simp [task_worker]

/-- C1 witness: concrete instance of the amended claim. -/
theorem C1_os_io_failure_witness :
    (task_worker CallResult.raisesOsIoError PutBehavior.succeeds true).exitStatus
      = 1 ∧
    (task_worker CallResult.raisesOsIoError PutBehavior.succeeds true).writes
      = [PyVal.none] :=
  ⟨(C1_os_io_failure PutBehavior.succeeds true).1,
   (C1_os_io_failure PutBehavior.succeeds true).2 rfl⟩

/-- C2: evaluation at the failing input. On NT the manager rebinds the locals
to `dump_function`'s marshaled function and args, but spawns the worker with
`task._args` — the original, unmarshaled arguments — so the marshaled argument
tuple is discarded, contradicting the claim that the worker is spawned with
the marshaled args. -/
theorem C2_nt_spawn_discards_marshaled_args :
    (task_manager true ⟨FuncRepr.plain 1, ArgsRepr.plain 2, 0, 0, false⟩
        (GetResult.item PyVal.none) false).spawnedFunction
      = FuncRepr.marshaled (FuncRepr.plain 1) ∧
    (task_manager true ⟨FuncRepr.plain 1, ArgsRepr.plain 2, 0, 0, false⟩
        (GetResult.item PyVal.none) false).spawnedArgs
      = ArgsRepr.plain 2 ∧
    (dump_function (FuncRepr.plain 1) (ArgsRepr.plain 2)).2
      = ArgsRepr.marshaled (ArgsRepr.plain 2) ∧
    (task_manager true ⟨FuncRepr.plain 1, ArgsRepr.plain 2, 0, 0, false⟩
        (GetResult.item PyVal.none) false).spawnedArgs
      ≠ (dump_function (FuncRepr.plain 1) (ArgsRepr.plain 2)).2 := by
  decide

/-- C3: the manager resolves the effective deadline as the configured timeout
when it is positive and as unbounded otherwise; a task with timeout 0 whose
target returns 42 produces a worker write of 42 and, on receiving it,
finalizes with result 42 (its wait being unbounded, no deadline can elapse). -/
theorem C3_effective_deadline (isNT : Bool) (t : TaskInput) (get : GetResult)
    (cb : Bool) :
    (0 < t.timeout →
      (task_manager isNT t get cb).effTimeout = some t.timeout) ∧
    (t.timeout ≤ 0 →
      (task_manager isNT t get cb).effTimeout = Option.none) ∧
    (task_worker (CallResult.ok (PyVal.int 42)) PutBehavior.succeeds true).writes
      = [PyVal.int 42] ∧
    (t.timeout = 0 →
      (task_manager isNT t (GetResult.item (PyVal.int 42)) cb).finalOutcome
        = MOutcome.fromChannel (PyVal.int 42)) := by
  refine ⟨fun h => ?_, fun h => ?_, rfl, fun _ => rfl⟩
  · simp [task_manager, h]
  · simp [task_manager]
    omega

/-- C3 witness: concrete instance with timeout 0 and channel item 42. -/
theorem C3_effective_deadline_witness :
    (task_manager false ⟨FuncRepr.plain 0, ArgsRepr.plain 0, 0, 0, false⟩
        (GetResult.item (PyVal.int 42)) false).finalOutcome
      = MOutcome.fromChannel (PyVal.int 42) ∧
    (task_manager false ⟨FuncRepr.plain 0, ArgsRepr.plain 0, 0, 0, false⟩
        (GetResult.item (PyVal.int 42)) false).effTimeout = Option.none :=
  ⟨(C3_effective_deadline false ⟨FuncRepr.plain 0, ArgsRepr.plain 0, 0, 0, false⟩
      (GetResult.item (PyVal.int 42)) false).2.2.2 rfl,
   (C3_effective_deadline false ⟨FuncRepr.plain 0, ArgsRepr.plain 0, 0, 0, false⟩
      (GetResult.item (PyVal.int 42)) false).2.1 (by decide)⟩

/-- C4: when the deadline elapses with nothing received (`Empty`), the manager
finalizes the task with `TimeoutError('Task Timeout', timeout)` carrying the
configured bound `task.timeout` (a deadline can only elapse when the wait was
bounded, i.e. when `task.timeout > 0`). -/
theorem C4_timeout_carries_bound (isNT : Bool) (t : TaskInput) (cb : Bool)
    (h : 0 < t.timeout) :
    (task_manager isNT t GetResult.empty cb).finalOutcome
      = MOutcome.timeoutError (some t.timeout) := by
  simp [task_manager, h]

/-- C4 witness: concrete instance with timeout 5. -/
theorem C4_timeout_carries_bound_witness :
    (task_manager false ⟨FuncRepr.plain 0, ArgsRepr.plain 0, 0, 5, false⟩
        GetResult.empty false).finalOutcome
      = MOutcome.timeoutError (some 5) :=
  C4_timeout_carries_bound false ⟨FuncRepr.plain 0, ArgsRepr.plain 0, 0, 5, false⟩
    false (by decide)

/-- C5: when the target raises a non-OS, non-IO exception, the worker captures
it, overwrites its `traceback` attribute with the (non-empty) formatted stack
trace, and writes the exception object itself to the channel as the outcome
(exiting normally, nothing propagates); and if writing the outcome raises a
`PicklingError`, that pickling failure is captured with its own trace and
written instead. -/
theorem C5_exception_captured (cls msg : String) (tb0 : Option String)
    (put2Succeeds : Bool) (pmsg : String) :
    (task_worker (CallResult.raisesExc cls msg tb0) PutBehavior.succeeds
        put2Succeeds).writes = [PyVal.exc cls msg (some format_exc)] ∧
    (task_worker (CallResult.raisesExc cls msg tb0) PutBehavior.succeeds
        put2Succeeds).exitStatus = 0 ∧
    format_exc ≠ "" ∧
    (task_worker (CallResult.raisesExc cls msg tb0)
        (PutBehavior.raisesPickling pmsg) true).writes
      = [PyVal.exc "PicklingError" pmsg (some format_exc)] := by
  exact ⟨rfl, rfl, by decide, rfl⟩

/-- C6: in every branch of the manager's wait — item received or `Empty` — the
manager sets the outcome (position 1 of the event trace), then terminates the
worker (position 2), then joins it (position 3); terminate and join each occur
exactly once per run. -/
theorem C6_cleanup_every_branch (isNT : Bool) (t : TaskInput) (get : GetResult)
    (cb : Bool) :
    (task_manager isNT t get cb).events[1]? = some MEvent.setOutcome ∧
    (task_manager isNT t get cb).events[2]? = some MEvent.terminate ∧
    (task_manager isNT t get cb).events[3]? = some MEvent.join ∧
    (task_manager isNT t get cb).events.count MEvent.terminate = 1 ∧
    (task_manager isNT t get cb).events.count MEvent.join = 1 := by
  obtain ⟨f, a, k, tmo, cbp⟩ := t
  cases cbp <;> cases cb <;> cases get <;>
    simp [task_manager, List.count_cons]

/-- C7: when a callback is registered, the manager invokes it exactly once,
strictly after the outcome is set (event positions 4 and 1 of the trace); an
exception raised by the callback is caught (never propagated out of the
manager), and the finalized outcome is the same whether or not the callback
raises. -/
theorem C7_callback_once_after_outcome (isNT : Bool) (t : TaskInput)
    (get : GetResult) (cbRaises : Bool) (h : t.callbackPresent = true) :
    (task_manager isNT t get cbRaises).events.count MEvent.callbackInvoked = 1 ∧
    (task_manager isNT t get cbRaises).events[1]? = some MEvent.setOutcome ∧
    (task_manager isNT t get cbRaises).events[4]? = some MEvent.callbackInvoked ∧
    (task_manager isNT t get cbRaises).callbackErrorPropagated = false ∧
    (task_manager isNT t get cbRaises).finalOutcome
      = (task_manager isNT t get false).finalOutcome := by
  obtain ⟨f, a, k, tmo, cbp⟩ := t
  subst h
  cases cbRaises <;> cases get <;>
    simp [task_manager, List.count_cons]

/-- C7 witness: concrete instance with a registered, raising callback. -/
theorem C7_callback_once_after_outcome_witness :
    (task_manager false ⟨FuncRepr.plain 0, ArgsRepr.plain 0, 0, 0, true⟩
        (GetResult.item PyVal.none) true).events.count MEvent.callbackInvoked
      = 1 ∧
    (task_manager false ⟨FuncRepr.plain 0, ArgsRepr.plain 0, 0, 0, true⟩
        (GetResult.item PyVal.none) true).callbackErrorPropagated = false :=
  ⟨(C7_callback_once_after_outcome false
      ⟨FuncRepr.plain 0, ArgsRepr.plain 0, 0, 0, true⟩
      (GetResult.item PyVal.none) true rfl).1,
   (C7_callback_once_after_outcome false
      ⟨FuncRepr.plain 0, ArgsRepr.plain 0, 0, 0, true⟩
      (GetResult.item PyVal.none) true rfl).2.2.2.1⟩

/-- C8: `_cancel` sets the cancellation flag and appends
`TaskCancelled('Task Cancelled')` to the task's channel, leaving the outcome
field untouched (so cancelling an already-terminal task is a no-op on the
outcome); when no real result has been observed (empty channel), the manager's
next read yields the injected item and it finalizes the task with the
cancellation outcome. -/
theorem C8_cancel_flag_and_injection (s : ProcessTaskState) (isNT : Bool)
    (t : TaskInput) (cb : Bool) :
    (ProcessTask_cancel s).cancelled = true ∧
    (ProcessTask_cancel s).queue = s.queue ++ [TaskCancelledItem] ∧
    (ProcessTask_cancel s).outcome = s.outcome ∧
    (s.queue = [] →
      (task_manager isNT t (queueGet (ProcessTask_cancel s).queue) cb).finalOutcome
        = MOutcome.fromChannel TaskCancelledItem) := by
  refine ⟨rfl, rfl, rfl, fun h => ?_⟩
  simp [ProcessTask_cancel, h, queueGet, task_manager]

/-- C8 witness: cancelling a fresh task with an empty channel. -/
theorem C8_cancel_flag_and_injection_witness :
    (ProcessTask_cancel ⟨false, Option.none, []⟩).cancelled = true ∧
    (task_manager false ⟨FuncRepr.plain 0, ArgsRepr.plain 0, 0, 0, false⟩
        (queueGet (ProcessTask_cancel ⟨false, Option.none, []⟩).queue)
        false).finalOutcome
      = MOutcome.fromChannel TaskCancelledItem :=
  ⟨(C8_cancel_flag_and_injection ⟨false, Option.none, []⟩ false
      ⟨FuncRepr.plain 0, ArgsRepr.plain 0, 0, 0, false⟩ false).1,
   (C8_cancel_flag_and_injection ⟨false, Option.none, []⟩ false
      ⟨FuncRepr.plain 0, ArgsRepr.plain 0, 0, 0, false⟩ false).2.2.2 rfl⟩

/-- C9: a freshly constructed decorator wrapper's n-th invocation (counting
from 0) creates a task with id n — each wrapper has its own monotonic id
sequence — while the keyword-configured `task(target=...)` form draws the new
task's id from the module-level `_task_counter`, returning a task with id equal
to the counter's current value and advancing the counter by one. -/
theorem C9_ids_monotonic (tmo cb : PyVal) (n : Nat) (g : Nat)
    (args : List ArgKind) (kwargs : List (String × PyVal))
    (h : (kwargs.lookup "target").getD PyVal.none ≠ PyVal.none) :
    (mkWrapper tmo cb).nthId n = n ∧
    (task g args kwargs).1.taskId = some g ∧
    (task g args kwargs).2 = g + 1 := by
  have hk : kwargs.length ≠ 0 := by
    intro he
    rw [List.length_eq_zero] at he
    subst he
    simp [List.lookup] at h
  have htask : task g args kwargs
      = (.taskReturned g ((kwargs.lookup "timeout").getD (PyVal.int 0))
          ((kwargs.lookup "callback").getD PyVal.none), g + 1) := by
    unfold task
    rw [if_neg (fun hc => hk hc.2), if_pos (Nat.pos_of_ne_zero hk), if_pos h]
  refine ⟨?_, ?_, ?_⟩
  · rw [nthId_eq]; simp [mkWrapper]
  · rw [htask]; rfl
  · rw [htask]

/-- C9 witness: fourth invocation of a fresh wrapper has id 3; calling the
target form at counter 7 yields a task with id 7 and counter 8. -/
theorem C9_ids_monotonic_witness :
    (mkWrapper PyVal.none PyVal.none).nthId 3 = 3 ∧
    (task 7 [] [("target", PyVal.int 1)]).1.taskId = some 7 ∧
    (task 7 [] [("target", PyVal.int 1)]).2 = 8 :=
  C9_ids_monotonic PyVal.none PyVal.none 3 7 [] [("target", PyVal.int 1)]
    (by decide)

/-- C10: `task(...)` raises `ValueError` exactly when it gets no arguments at
all, or at least one positional argument, no keyword arguments, and a first
positional argument that is not a function or method; in every other case it
returns without raising, and whenever any keyword argument is present the
positional arguments are ignored entirely (the call behaves as if there were
none), with unrecognized keyword keys silently discarded. -/
theorem C10_value_error_iff (g : Nat) (args : List ArgKind)
    (kwargs : List (String × PyVal)) :
    ((task g args kwargs).1.isValueError = true ↔
      (args = [] ∧ kwargs = []) ∨
      (args ≠ [] ∧ kwargs = [] ∧ args.head? ≠ some ArgKind.functionOrMethod)) ∧
    (kwargs ≠ [] → task g args kwargs = task g [] kwargs) := by
  cases args with
  | nil =>
    cases kwargs with
    | nil => simp [task, TaskResult.isValueError]
    | cons p ps =>
      have hne : (task g [] (p :: ps)).1.isValueError = false := by
        by_cases hT : ((p :: ps).lookup "target").getD PyVal.none = PyVal.none <;>
          simp [task, hT, TaskResult.isValueError]
      exact ⟨by simp [hne], fun _ => rfl⟩
  | cons a as =>
    cases kwargs with
    | nil =>
      cases a <;> simp [task, TaskResult.isValueError]
    | cons p ps =>
      have hign : task g (a :: as) (p :: ps) = task g [] (p :: ps) := by
        simp only [task]
        rw [if_neg (show ¬(0 < (a :: as).length ∧ (p :: ps).length = 0) by simp),
          if_neg (show ¬(0 < ([] : List ArgKind).length ∧ (p :: ps).length = 0)
            by simp)]
      have hne : (task g [] (p :: ps)).1.isValueError = false := by
        by_cases hT : ((p :: ps).lookup "target").getD PyVal.none = PyVal.none <;>
          simp [task, hT, TaskResult.isValueError]
      exact ⟨by simp [hign, hne], fun _ => hign⟩

/-- C10 witness: no arguments raises; positional arguments are ignored when a
keyword argument is present. -/
theorem C10_value_error_iff_witness :
    (task 0 [] []).1.isValueError = true ∧
    task 0 [ArgKind.other] [("x", PyVal.int 1)] = task 0 [] [("x", PyVal.int 1)] :=
  ⟨(C10_value_error_iff 0 [] []).1.mpr (Or.inl ⟨rfl, rfl⟩),
   (C10_value_error_iff 0 [ArgKind.other] [("x", PyVal.int 1)]).2 (by decide)⟩

end Pebble
